import Mathlib

/-!
Verification development for the markstream-react incremental rendering core.

The definitions below are shallow embeddings of the TypeScript sources:
* `KatexClient` embeds `src/packages/markstream-react/src/workers/katexWorkerClient.ts`
  (the formula off-thread render client: cache, in-flight map, busy rejection,
  backpressure retry helper, worker message handlers).
* `MermaidClient` embeds the diagram off-thread render client from the same file
  (`callWorker`, `setMermaidWorker` handlers with their worker-identity check).
* `LiveWindow` and `BatchScheduler` embed the virtualization / batch promotion
  logic of `src/packages/markstream-react/src/components/NodeRenderer.tsx`.
* `Progressive` embeds the generation-token controller `progressiveRender` of the
  Mermaid block component, and `getSafePrefixCandidate`, its dangling-suffix
  trimmer.

Machine numbers in the sources are JavaScript numbers used only as array sizes,
counters and indices; they are embedded as `Nat`.  JavaScript `Map`s are embedded
as insertion-ordered association lists (head = oldest entry), which matches the
iteration order semantics of `Map` used by the code (`keys().next().value` is the
first inserted key that is still present, and `set` on an existing key keeps its
position).
-/

namespace MarkStream

/-! ## Formula off-thread render client (`katexWorkerClient.ts`, first document) -/

namespace KatexClient

/-- `CACHE_MAX` from the source. -/
def CACHE_MAX : Nat := 200

/-- Cache key construction from the source:
`` `${displayMode ? 'd' : 'i'}:${content}` ``. -/
def cacheKey (displayMode : Bool) (content : String) : String :=
  (if displayMode then "d" else "i") ++ ":" ++ content

/-- `Map.get` on an insertion-ordered association list. -/
def cacheGet (cache : List (String × String)) (key : String) : Option String :=
  match cache with
  | [] => none
  | (k, v) :: rest => if k = key then some v else cacheGet rest key

/-- `Map.set`: update in place when the key is present (keeping its insertion
position, as JavaScript `Map.set` does), otherwise append at the end. -/
def mapSet (cache : List (String × String)) (key v : String) : List (String × String) :=
  match cache with
  | [] => [(key, v)]
  | (k, w) :: rest => if k = key then (k, v) :: rest else (k, w) :: mapSet rest key v

/-- The cache insertion used at both insertion sites of the source
(`setKaTeXCache`, lines 232–239, and the success branch of the `onmessage`
handler installed by `setKaTeXWorker`, lines 55–63):
`cache.set(key, html); if (cache.size > CACHE_MAX) cache.delete(firstKey)`. -/
def cacheInsert (cache : List (String × String)) (key v : String) : List (String × String) :=
  let c := mapSet cache key v
  if CACHE_MAX < c.length then c.drop 1 else c

/-- The module-level state of the formula client: the bound worker flag, the
latched `workerInitError`, the in-flight `pending` map (modelled by its ids, in
insertion order), the result cache and `MAX_CONCURRENCY`. -/
structure KatexState where
  hasWorker : Bool
  workerInitError : Bool
  pending : List String
  cache : List (String × String)
  maxConcurrency : Nat
  deriving DecidableEq, Repr

/-- Synchronous outcome of a `renderKaTeXInWorker` call. -/
inductive SubmitResult where
  | rejectedInit
  | resolvedCached (html : String)
  | rejectedBusy (inFlight maxC : Nat)
  | rejectedAborted
  | rejectedPostError
  | pendingRegistered (id : String)
  deriving DecidableEq, Repr

/-- Result of the synchronous part of a submission: the settled-or-registered
outcome, the successor state, and whether `postMessage` was invoked on the
worker. -/
structure SubmitOutcome where
  result : SubmitResult
  state : KatexState
  dispatched : Bool
  deriving DecidableEq, Repr

/-- The synchronous part of `renderKaTeXInWorker` (lines 103–229 of the source,
with the development-only `perfMonitor` calls omitted): latched init error
first, then cache lookup, then `ensureWorker`, then the concurrency-cap check,
then the aborted-signal check inside the promise executor, then registration of
the pending entry followed by `postMessage` (whose failure path removes the
entry again). `newId` stands for the freshly generated correlation id and
`postOk` for whether `postMessage` succeeds. -/
def renderKaTeXInWorker (st : KatexState) (content : String) (displayMode : Bool)
    (aborted : Bool) (newId : String) (postOk : Bool) : SubmitOutcome :=
  if st.workerInitError then ⟨.rejectedInit, st, false⟩
  else
    match cacheGet st.cache (cacheKey displayMode content) with
    | some html => ⟨.resolvedCached html, st, false⟩
    | none =>
      if !st.hasWorker then ⟨.rejectedInit, { st with workerInitError := true }, false⟩
      else if st.maxConcurrency ≤ st.pending.length then
        ⟨.rejectedBusy st.pending.length st.maxConcurrency, st, false⟩
      else if aborted then ⟨.rejectedAborted, st, false⟩
      else if postOk then
        ⟨.pendingRegistered newId, { st with pending := st.pending ++ [newId] }, true⟩
      else ⟨.rejectedPostError, st, true⟩

/-- A message posted back by the formula worker (`katexRenderer.worker.ts`
always includes `content` and `displayMode` in its replies). -/
structure WorkerMessage where
  id : String
  error : Option String
  html : String
  content : String
  displayMode : Bool
  deriving DecidableEq, Repr

/-- What a message/error handler did to the pending promises. -/
inductive HandlerAction where
  | none
  | resolved (id html : String)
  | rejected (id err : String)
  | rejectedAll
  deriving DecidableEq, Repr

/-- The `onmessage` handler installed by `setKaTeXWorker` (lines 43–66): look
the correlation id up in `pending`; if absent do nothing; otherwise remove the
entry, and either reject (error reply) or insert into the cache (when `content`
is truthy) and resolve. -/
def katexOnMessage (st : KatexState) (msg : WorkerMessage) : KatexState × HandlerAction :=
  if msg.id ∈ st.pending then
    let st1 := { st with pending := st.pending.erase msg.id }
    match msg.error with
    | some e => (st1, .rejected msg.id e)
    | none =>
      if msg.content ≠ "" then
        ({ st1 with
            cache := cacheInsert st1.cache (cacheKey msg.displayMode msg.content) msg.html },
          .resolved msg.id msg.html)
      else (st1, .resolved msg.id msg.html)
  else (st, .none)

/-- The `onmessage` handler as a closure attached to a particular worker
instance.  The source handler (lines 43–66) performs no comparison between the
worker it was installed on and the currently bound worker, so the two identity
arguments are ignored: a handler still attached to a stale worker operates on
the shared `pending` map exactly as the live one does. -/
def katexOnMessageFrom (_boundWorker _handlerWorker : Nat) (st : KatexState)
    (msg : WorkerMessage) : KatexState × HandlerAction :=
  katexOnMessage st msg

/-- The `onerror` handler installed by `setKaTeXWorker` (lines 67–75): reject
every pending entry and clear the map, with no worker-identity comparison. -/
def katexOnErrorFrom (_boundWorker _handlerWorker : Nat) (st : KatexState) :
    KatexState × HandlerAction :=
  ({ st with pending := [] }, .rejectedAll)

/-- `WORKER_BUSY_CODE` from the source. -/
def WORKER_BUSY_CODE : String := "WORKER_BUSY"

/-- One iteration outcome of the `renderKaTeXInWorker` call inside the
backpressure loop: the promise either fulfils with html or rejects with an
error carrying a `code`. -/
inductive AttemptOutcome where
  | ok (html : String)
  | err (code : String)
  deriving DecidableEq, Repr

/-- Overall outcome of `renderKaTeXWithBackpressure`. -/
inductive BPResult where
  | success (html : String)
  | failure (code : String)
  | outOfOutcomes
  deriving DecidableEq, Repr

/-- Observable waiting behaviour of the backpressure loop. -/
inductive BPEvent where
  | waitedForSlot
  | backoff (ms : Nat)
  deriving DecidableEq, Repr

/-- `renderKaTeXWithBackpressure` (lines 323–354 of the source, with no abort
signal supplied, as the signal is optional there): starting at `attempt = 0`,
try a submission; rethrow immediately unless the error code is `WORKER_BUSY`
and `attempt < maxRetries`; otherwise increment `attempt`, wait for a worker
slot (failures of that wait are swallowed by `.catch(() => {})`), sleep
`backoffMs * attempt` when `backoffMs > 0`, and retry.  The environment's
successive submission outcomes are supplied as a list; the result records the
waits performed. -/
def renderKaTeXWithBackpressure (maxRetries backoffMs : Nat) :
    Nat → List AttemptOutcome → BPResult × List BPEvent
  | _, [] => (.outOfOutcomes, [])
  | attempt, o :: rest =>
    match o with
    | .ok v => (.success v, [])
    | .err c =>
      if c ≠ WORKER_BUSY_CODE ∨ maxRetries ≤ attempt then (.failure c, [])
      else
        let next := renderKaTeXWithBackpressure maxRetries backoffMs (attempt + 1) rest
        (next.1,
          .waitedForSlot ::
            (if 0 < backoffMs then [.backoff (backoffMs * (attempt + 1))] else []) ++ next.2)

/-- `defaultBackpressure.maxRetries` from the source (line 305). -/
def defaultMaxRetries : Nat := 1

end KatexClient

/-! ## Diagram off-thread render client (`katexWorkerClient.ts`, second document) -/

namespace MermaidClient

/-- Module-level state of the diagram client: the identity of the currently
bound worker (`worker`, compared by reference in the source and therefore
modelled by a numeric identity), the latched `workerInitError`, the in-flight
`rpcMap` (its correlation ids, in insertion order) and `maxConcurrency`. -/
structure MermaidState where
  boundWorker : Option Nat
  workerInitError : Bool
  rpcMap : List String
  maxConcurrency : Nat
  deriving DecidableEq, Repr

/-- Synchronous outcome of a `callWorker` call. -/
inductive CallResult where
  | rejectedInit
  | rejectedBusy (inFlight maxC : Nat)
  | rejectedPostError
  | pendingRegistered (id : String)
  deriving DecidableEq, Repr

structure CallOutcome where
  result : CallResult
  state : MermaidState
  dispatched : Bool
  deriving DecidableEq, Repr

/-- The synchronous part of `callWorker` (lines 463–516 of the source): latched
init error first, then `ensureWorker`, then the concurrency-cap check (reject
with the `WORKER_BUSY` code carrying `rpcMap.size` and `maxConcurrency`), then
registration in `rpcMap` followed by `postMessage` (whose failure path removes
the entry again). -/
def callWorker (st : MermaidState) (newId : String) (postOk : Bool) : CallOutcome :=
  if st.workerInitError then ⟨.rejectedInit, st, false⟩
  else if st.boundWorker = none then
    ⟨.rejectedInit, { st with workerInitError := true }, false⟩
  else if st.maxConcurrency ≤ st.rpcMap.length then
    ⟨.rejectedBusy st.rpcMap.length st.maxConcurrency, st, false⟩
  else if postOk then
    ⟨.pendingRegistered newId, { st with rpcMap := st.rpcMap ++ [newId] }, true⟩
  else ⟨.rejectedPostError, st, true⟩

/-- A message posted back by the diagram worker: `{ id, ok, result, error }`. -/
structure MermaidMessage where
  id : String
  ok : Option Bool
  result : String
  error : Option String
  deriving DecidableEq, Repr

/-- The `onmessage` handler installed by `setMermaidWorker` (lines 389–400).
It is a closure over `current`, the worker it was installed on, and begins with
the identity check `if (worker !== current) return`: a handler attached to a
stale worker does nothing.  Otherwise the correlation id is looked up in
`rpcMap`; an absent id is ignored; a present one is rejected when
`ok === false || error` and resolved otherwise (both paths remove the entry via
the pending record's `cleanup`). -/
def mermaidOnMessage (st : MermaidState) (handlerWorker : Nat) (msg : MermaidMessage) :
    MermaidState × KatexClient.HandlerAction :=
  if st.boundWorker ≠ some handlerWorker then (st, .none)
  else if msg.id ∈ st.rpcMap then
    let st1 := { st with rpcMap := st.rpcMap.erase msg.id }
    if msg.ok = some false ∨ msg.error ≠ none then
      (st1, .rejected msg.id (msg.error.getD "Unknown error"))
    else (st1, .resolved msg.id msg.result)
  else (st, .none)

/-- The `onerror` handler installed by `setMermaidWorker` (lines 401–418): the
same `worker !== current` identity check first, then nothing when `rpcMap` is
empty, otherwise reject every pending entry and clear the map. -/
def mermaidOnError (st : MermaidState) (handlerWorker : Nat) :
    MermaidState × KatexClient.HandlerAction :=
  if st.boundWorker ≠ some handlerWorker then (st, .none)
  else if st.rpcMap.length = 0 then (st, .none)
  else ({ st with rpcMap := [] }, .rejectedAll)

end MermaidClient

/-! ## Virtualization window (`NodeRenderer.tsx`, live-range effect) -/

namespace LiveWindow

/-- The `{start, end}` live range (`end` is a Lean keyword, hence `stop`). -/
structure Range where
  start : Nat
  stop : Nat
  deriving DecidableEq, Repr

/-- The live-range recomputation effect of `NodeRendererInner`
(`NodeRenderer.tsx`, lines 353–378), for the virtualization-enabled case:
clamp the focus to `[0, total-1]`, take
`start = max(0, focus - buffer)`, `end = min(total, focus + buffer + 1)`,
then shrink symmetrically (`start += ceil(excess/2)`, `end -= floor(excess/2)`)
when the span exceeds `maxLive`, or expand symmetrically bounded by `[0, total]`
when it is under.  All quantities are non-negative integers; `Nat` subtraction
coincides with the source's `Math.max(0, a - b)` where that guard is present,
and no other subtraction in this computation underflows. -/
def computeLiveRange (total focusIndex buffer maxLive : Nat) : Range :=
  if total = 0 then ⟨0, 0⟩
  else
    let focus := min focusIndex (total - 1)
    let start0 := focus - buffer
    let end0 := min total (focus + buffer + 1)
    let size := end0 - start0
    if maxLive < size then
      let excess := size - maxLive
      ⟨start0 + (excess + 1) / 2, end0 - excess / 2⟩
    else if size < maxLive then
      let missing := maxLive - size
      ⟨start0 - (missing + 1) / 2, min total (end0 + missing / 2)⟩
    else ⟨start0, end0⟩

/-- The clamped focus used by the effect. -/
def clampFocus (total focusIndex : Nat) : Nat := min focusIndex (total - 1)

end LiveWindow

/-! ## Batch promotion scheduler (`NodeRenderer.tsx`) -/

namespace BatchScheduler

/-- `previousDatasetRef` contents: the caller-supplied `indexKey` (an optional
identity) and the total node count. -/
structure PrevDataset where
  key? : Option String
  total : Nat
  deriving DecidableEq, Repr

/-- `previousBatchConfigRef` contents. -/
structure BatchConfig where
  batchSize : Nat
  initial : Nat
  delay : Nat
  enabled : Bool
  deriving DecidableEq, Repr

/-- The scheduler state carried across runs of the dataset/batch reset effect. -/
structure SchedulerState where
  renderedCount : Nat
  prevDataset : PrevDataset
  prevBatch : BatchConfig
  adaptive : Nat
  deriving DecidableEq, Repr

/-- Initial `renderedCount` (`NodeRenderer.tsx`, lines 74–78):
`batchingEnabled ? min(total, resolvedInitialBatch) : total`. -/
def initialRenderedCount (batchingEnabled : Bool) (total initialBatch : Nat) : Nat :=
  if batchingEnabled then min total initialBatch else total

/-- `desiredRenderedCount` (lines 136–149): `total` without virtualization,
otherwise `max(renderedCount, min(total, max(liveEnd + buffer, initialBatch)))`. -/
def desiredRenderedCount (virtualizationEnabled : Bool)
    (total liveEnd buffer initialBatch rc : Nat) : Nat :=
  if virtualizationEnabled then max rc (min total (max (liveEnd + buffer) initialBatch))
  else total

/-- One `applyIncrement` step of `scheduleBatch` (lines 205–214):
`next = min(desired, prev + max(1, size))`. -/
def applyIncrement (rc desired size : Nat) : Nat := min desired (rc + max 1 size)

/-- The `datasetChanged` condition of the dataset/batch reset effect
(lines 283–289): the caller-supplied key is compared when present, otherwise
the total count serves as the identity. -/
def datasetChanged (st : SchedulerState) (indexKey : Option String) (total : Nat) : Bool :=
  match indexKey with
  | some k => decide (st.prevDataset.key? ≠ some k)
  | none => decide (total ≠ st.prevDataset.total)

/-- The `batchConfigChanged` condition of the same effect; the source compares
the previous batch configuration field by field, which coincides with
structural equality of `BatchConfig`. -/
def batchConfigChanged (st : SchedulerState) (cfg : BatchConfig) : Bool :=
  decide (st.prevBatch ≠ cfg)

/-- The dataset/batch reset effect (lines 282–340), as a function of the state,
the current inputs, and the `desiredRenderedCountRef` value computed by the memo
of the same render pass (`desired`).  The timer/scheduling side effects
(`cancelBatchTimers`, `scheduleBatch`) do not touch `renderedCount`
synchronously and are not part of this state transition. -/
def datasetEffect (st : SchedulerState) (indexKey : Option String) (total : Nat)
    (cfg : BatchConfig) (desired : Nat) : SchedulerState :=
  let changed := datasetChanged st indexKey total || batchConfigChanged st cfg
  let st1 := { st with
    prevDataset := ⟨indexKey, total⟩
    prevBatch := cfg
    adaptive := if changed then max 1 cfg.batchSize else st.adaptive }
  if total = 0 then { st1 with renderedCount := 0 }
  else if ¬cfg.enabled then { st1 with renderedCount := desired }
  else if changed then { st1 with renderedCount := min desired cfg.initial }
  else { st1 with renderedCount := min st.renderedCount desired }

/-- Focus update performed by `markNodeVisible` (lines 425–431):
`setFocusIndex(prev => index > prev ? index : prev)` when the slot became
visible and virtualization is enabled. -/
def markNodeVisibleFocus (virtualizationEnabled visible : Bool) (focus index : Nat) : Nat :=
  if visible ∧ virtualizationEnabled then max focus index else focus

/-- Focus update performed by the focus-on-promotion effect (lines 531–535):
`if (virtualizationEnabled && renderedCount > prevRendered) setFocusIndex(renderedCount - 1)`. -/
def promotionEffectFocus (virtualizationEnabled : Bool)
    (focus renderedCount prevRendered : Nat) : Nat :=
  if virtualizationEnabled ∧ prevRendered < renderedCount then renderedCount - 1 else focus

end BatchScheduler

/-! ## Dangling-suffix trimming (`getSafePrefixCandidate`, MermaidBlockNode) -/

namespace SafeLines

/-- The whitespace class of JavaScript's `\s` / `trim`, restricted to the ASCII
whitespace characters relevant to the sources. -/
def isJsSpace (c : Char) : Bool :=
  c = ' ' || c = '\t' || c = '\n' || c = '\r' || c = '\x0b' || c = '\x0c'

/-- `String.prototype.trimEnd`. -/
def trimEndL (l : List Char) : List Char :=
  (l.reverse.dropWhile isJsSpace).reverse

/-- `String.prototype.trim`. -/
def trimL (l : List Char) : List Char :=
  trimEndL (l.dropWhile isJsSpace)

/-- `code.split('\n')` (note `"".split('\n')` is `[""]`, hence the `[[]]`). -/
def splitLines : List Char → List (List Char)
  | [] => [[]]
  | c :: rest =>
    if c = '\n' then [] :: splitLines rest
    else
      match splitLines rest with
      | [] => [[c]]
      | l :: ls => (c :: l) :: ls

/-- Helper for `join('\n')`: each further line is preceded by a newline. -/
def joinTail : List (List Char) → List Char
  | [] => []
  | l :: rest => '\n' :: (l ++ joinTail rest)

/-- `lines.join('\n')`. -/
def joinLines : List (List Char) → List Char
  | [] => []
  | l :: rest => l ++ joinTail rest

/-- First alternative of the dangling-line test:
`/^[-=~>|<\s]+$/` applied to `last.trim()`. -/
def onlyConnectorChars (t : List Char) : Bool :=
  !t.isEmpty && t.all fun c =>
    c = '-' || c = '=' || c = '~' || c = '>' || c = '|' || c = '<' || isJsSpace c

/-- The two-character connector endings of
`/(?:--|==|~~|->|<-|-\||-\)|-x|o-|\|-|\.-)\s*$/`.  The tested line has already
been `trimEnd`ed, so the trailing `\s*` matches the empty string and the regex
reduces to a suffix test. -/
def connectorEndings : List (List Char) :=
  [['-', '-'], ['=', '='], ['~', '~'], ['-', '>'], ['<', '-'], ['-', '|'],
    ['-', ')'], ['-', 'x'], ['o', '-'], ['|', '-'], ['.', '-']]

/-- The diagram-type keywords of
`/(?:graph|flowchart|sequenceDiagram|classDiagram|stateDiagram|erDiagram|gantt)\s*$/i`,
lowercased. -/
def diagramKeywords : List (List Char) :=
  ["graph".data, "flowchart".data, "sequencediagram".data, "classdiagram".data,
    "statediagram".data, "erdiagram".data, "gantt".data]

/-- `looksDangling` (lines 769–772 of the Mermaid block source), applied to the
`trimEnd`ed last line. -/
def looksDangling (last : List Char) : Bool :=
  onlyConnectorChars (trimL last)
    || connectorEndings.any (fun e => e.isSuffixOf last)
    || ['-'].isSuffixOf last || ['|'].isSuffixOf last
    || ['>'].isSuffixOf last || ['<'].isSuffixOf last
    || diagramKeywords.any fun k => k.isSuffixOf (last.map Char.toLower)

/-- The per-line pop condition of the `while` loop of `getSafePrefixCandidate`:
a line is dropped when its `trimEnd` is empty or it looks dangling. -/
def popLine (lraw : List Char) : Bool :=
  (trimEndL lraw).isEmpty || looksDangling (trimEndL lraw)

/-- The pop condition restricted to blank lines (used to phrase the
"modulo trailing blank lines" part of the claim). -/
def blankLine (lraw : List Char) : Bool := (trimEndL lraw).isEmpty

/-- `getSafePrefixCandidate` (lines 760–780): split into lines, pop trailing
lines while the last one is blank or looks dangling, join back.  The `while`
loop popping from the end is `dropWhile` on the reversed line list. -/
def getSafePrefixCandidate (code : List Char) : List Char :=
  joinLines ((splitLines code).reverse.dropWhile popLine).reverse

/-- The same function with only blank trailing lines removed (what the claim's
"returns the input unchanged (modulo trailing blank lines)" denotes). -/
def dropTrailingBlanks (code : List Char) : List Char :=
  joinLines ((splitLines code).reverse.dropWhile blankLine).reverse

end SafeLines

/-! ## Progressive render controller (`progressiveRender`, MermaidBlockNode) -/

namespace Progressive

/-- Outcome of the `canParseWithFallback` await. -/
inductive ParseOutcome where
  | success
  | abortError
  | failure
  deriving DecidableEq, Repr

/-- The environment of one `progressiveRender` invocation: what the world does
at each of its await points.  `tokenAfterParse`, `tokenAfterPreview` record the
controller's current generation token when the corresponding await returns
(these are the two places the source compares against the captured token);
`tokenAtFullCompletion` and `tokenAtPreviewCompletion` record it when the full
and the preview (partial-result) render settle — the source never reads these,
which is exactly what claim C1 is about.  The `aborted*` fields are the
observations of the optional abort signal at the corresponding points. -/
structure RenderEnv where
  parseOutcome : ParseOutcome
  tokenAfterParse : Nat
  abortedAfterParse : Bool
  fullRenderOk : Bool
  abortedDuringFull : Bool
  tokenAtFullCompletion : Nat
  prefixFound : Option (List Char)
  tokenAfterPrefix : Nat
  abortedAfterPrefix : Bool
  previewRenderOk : Bool
  abortedDuringPreview : Bool
  tokenAtPreviewCompletion : Nat
  deriving DecidableEq, Repr

/-- What ends up in the content element. -/
inductive Display where
  | none
  | cleared
  | full (code : List Char)
  | preview (source : List Char)
  deriving DecidableEq, Repr

/-- Result of one `progressiveRender` invocation: the display write it
performed (if any), the controller's token counter after the invocation's
increment, and whether the slot was marked fully rendered
(`setHasRenderedOnce(true)` together with the `lastRenderedCodeRef` update). -/
structure RenderResult where
  display : Display
  newToken : Nat
  markedFullyRendered : Bool
  deriving DecidableEq, Repr

/-- `code.replace(/\s+/g, '')`, the normalization used for the no-op check. -/
def stripWs (code : List Char) : List Char :=
  code.filter fun c => !SafeLines.isJsSpace c

/-- The body of `renderFull` after the token checkpoint (lines 216–247): a
settled abort signal means `withTimeoutSignal` rejected and `renderFull`
returned `false` without touching the content element; a successful render
writes the themed svg of `code` (identified here by `code` itself) and marks the
slot; any other failure writes nothing.  No generation-token comparison occurs
here. -/
def runFull (code : List Char) (hasSignal : Bool) (captured : Nat)
    (env : RenderEnv) : RenderResult :=
  if hasSignal = true ∧ env.abortedDuringFull = true then ⟨.none, captured, false⟩
  else if env.fullRenderOk = true then ⟨.full code, captured, true⟩
  else ⟨.none, captured, false⟩

/-- The partial-result path of `progressiveRender` (lines 306–312 together with
`renderPartial`, lines 249–274): obtain a prefix candidate (`none` models the
rethrown `AbortError` of `findPrefixCandidate`), discard on an empty prefix, a
settled signal or a stale token, then render the safe prefix of the candidate
(`getSafePrefixCandidate(code) || code` inside `renderPartial`) with no further
token comparison; the preview write never marks the slot fully rendered. -/
def runPreview (hasSignal : Bool) (captured : Nat) (env : RenderEnv) : RenderResult :=
  match env.prefixFound with
  | none => ⟨.none, captured, false⟩
  | some p =>
    if p = [] ∨ (hasSignal = true ∧ env.abortedAfterPrefix = true)
        ∨ env.tokenAfterPrefix ≠ captured then
      ⟨.none, captured, false⟩
    else if hasSignal = true ∧ env.abortedDuringPreview = true then ⟨.none, captured, false⟩
    else if env.previewRenderOk = true then
      ⟨.preview (if SafeLines.getSafePrefixCandidate p = [] then p
                  else SafeLines.getSafePrefixCandidate p),
        captured, false⟩
    else ⟨.none, captured, false⟩

/-- `progressiveRender` (lines 276–313): empty code clears the content element
and returns without touching the token; an unchanged normalized source with a
previous full render is a no-op; otherwise the attempt captures `token + 1` and
runs the parse / full-render / preview pipeline, with the generation-token
comparisons exactly where the source has them — after the `canParseWithFallback`
await and after the `findPrefixCandidate` await, and nowhere else. -/
def progressiveRender (code : List Char) (hasSignal : Bool)
    (lastRendered : List Char) (hasRenderedOnce : Bool) (token : Nat)
    (env : RenderEnv) : RenderResult :=
  if SafeLines.trimL code = [] then ⟨.cleared, token, false⟩
  else if stripWs code = lastRendered ∧ hasRenderedOnce = true then ⟨.none, token, false⟩
  else
    let captured := token + 1
    match env.parseOutcome with
    | .abortError => ⟨.none, captured, false⟩
    | .success =>
      if (hasSignal = true ∧ env.abortedAfterParse = true)
          ∨ env.tokenAfterParse ≠ captured then
        ⟨.none, captured, false⟩
      else runFull code hasSignal captured env
    | .failure => runPreview hasSignal captured env

end Progressive

/-! ## Theorems -/

open KatexClient MermaidClient LiveWindow BatchScheduler SafeLines Progressive

/-- C2: for a submission to either off-thread render client with a bound
worker, no latched init error and (for the formula client) no cache hit, an
in-flight count at or above the concurrency cap makes the call reject
synchronously with the `WORKER_BUSY`-coded error carrying the current in-flight
count and the cap; the state is unchanged (no pending entry registered) and no
message is dispatched to the worker. -/
theorem busy_rejects_without_dispatch
    (st : KatexState) (content : String) (displayMode aborted postOk : Bool)
    (newId : String) (mst : MermaidState) (mid : String) (mpost : Bool)
    (hinit : st.workerInitError = false) (hw : st.hasWorker = true)
    (hmiss : cacheGet st.cache (cacheKey displayMode content) = none)
    (hbusy : st.maxConcurrency ≤ st.pending.length)
    (hminit : mst.workerInitError = false) (hmw : mst.boundWorker ≠ none)
    (hmbusy : mst.maxConcurrency ≤ mst.rpcMap.length) :
    renderKaTeXInWorker st content displayMode aborted newId postOk =
      ⟨.rejectedBusy st.pending.length st.maxConcurrency, st, false⟩ ∧
    callWorker mst mid mpost =
      ⟨.rejectedBusy mst.rpcMap.length mst.maxConcurrency, mst, false⟩ := by
  constructor
  · unfold renderKaTeXInWorker
    rw [hmiss]
    simp [hinit, hw, hbusy]
  · unfold callWorker
    simp [hminit, hmw, hmbusy]

/-- Witness for C2: with the cap at 2 and two requests in flight (the third
concurrent submission), both clients reject busy with `(inFlight, cap)` and
dispatch nothing. -/
theorem busy_rejects_without_dispatch_witness :
    renderKaTeXInWorker ⟨true, false, ["a", "b"], [], 2⟩ "x" true false "c" true =
      ⟨.rejectedBusy 2 2, ⟨true, false, ["a", "b"], [], 2⟩, false⟩ ∧
    callWorker ⟨some 1, false, ["m", "n"], 2⟩ "q" true =
      ⟨.rejectedBusy 2 2, ⟨some 1, false, ["m", "n"], 2⟩, false⟩ :=
  busy_rejects_without_dispatch ⟨true, false, ["a", "b"], [], 2⟩ "x" true false true "c"
    ⟨some 1, false, ["m", "n"], 2⟩ "q" true rfl rfl rfl (by decide) rfl (by decide)
    (by decide)

/-- C5 counterexample: the focus index is not a monotonic ratchet.  A
visibility transition first raises the focus to 100 (a visible placeholder slot
ahead of the rendered watermark); then the focus-on-promotion effect, fired by
the rendered count advancing from 40 to 41, sets the focus to
`renderedCount - 1 = 40` unconditionally — a decrease. -/
theorem focus_promotion_decrease_cex :
    markNodeVisibleFocus true true 0 100 = 100 ∧
    promotionEffectFocus true 100 41 40 = 40 ∧ (40 : Nat) < 100 := by decide

/-- C5 (amended): visibility transitions never decrease the focus and move it
at most up to the newly visible index; the promotion effect assigns
`renderedCount - 1` whenever the rendered count increases, with no guard
against the current focus, so the focus is non-decreasing under promotion only
when the rendered count stays above it. -/
theorem focus_ratchet_amended :
    (∀ (v11n visible : Bool) (focus index : Nat),
      focus ≤ markNodeVisibleFocus v11n visible focus index) ∧
    (∀ (v11n visible : Bool) (focus index : Nat),
      markNodeVisibleFocus v11n visible focus index ≤ max focus index) ∧
    (∀ (focus rc pr : Nat), pr < rc →
      promotionEffectFocus true focus rc pr = rc - 1) ∧
    (∀ (v11n : Bool) (focus rc pr : Nat), focus + 1 ≤ rc →
      focus ≤ promotionEffectFocus v11n focus rc pr) := by
  refine ⟨?_, ?_, ?_, ?_⟩
  · intro v11n visible focus index
    unfold markNodeVisibleFocus
    split <;> omega
  · intro v11n visible focus index
    unfold markNodeVisibleFocus
    split <;> omega
  · intro focus rc pr h
    unfold promotionEffectFocus
    simp [h]
  · intro v11n focus rc pr h
    unfold promotionEffectFocus
    split <;> omega

/-- Witness for C5 (amended), at focus 3, index 5, rendered count 7. -/
theorem focus_ratchet_amended_witness :
    3 ≤ markNodeVisibleFocus true true 3 5 ∧
    markNodeVisibleFocus true true 3 5 ≤ max 3 5 ∧
    promotionEffectFocus true 3 7 6 = 7 - 1 ∧
    3 ≤ promotionEffectFocus true 3 7 6 :=
  ⟨focus_ratchet_amended.1 true true 3 5, focus_ratchet_amended.2.1 true true 3 5,
    focus_ratchet_amended.2.2.1 3 7 6 (by decide),
    focus_ratchet_amended.2.2.2 true 3 7 6 (by decide)⟩

/-- C6 counterexample: the formula client has no worker-identity check.  A
message handled by the closure installed on worker 1, after worker 2 became the
bound worker, still removes the pending entry `"a"` (registered under the
current worker) from the shared map, resolves it, and populates the cache; the
stale `onerror` closure likewise rejects and clears every pending entry. -/
theorem katex_stale_worker_processed_cex :
    katexOnMessageFrom 2 1 ⟨true, false, ["a"], [], 5⟩ ⟨"a", none, "H", "x", true⟩ =
      (⟨true, false, [], [("d:x", "H")], 5⟩, .resolved "a" "H") ∧
    (2 : Nat) ≠ 1 ∧
    katexOnErrorFrom 2 1 ⟨true, false, ["a"], [], 5⟩ =
      (⟨true, false, [], [], 5⟩, .rejectedAll) := by decide

/-- C6 (amended): the diagram client's handlers begin with the
`worker !== current` identity check, so messages and errors from a worker other
than the currently bound one change nothing and settle nothing; the formula
client's handlers have no such check — their behaviour is independent of which
worker they were installed on and of which worker is bound. -/
theorem stale_worker_identity_amended
    (mst : MermaidState) (handler : Nat) (msg : MermaidMessage)
    (hstale : mst.boundWorker ≠ some handler) :
    mermaidOnMessage mst handler msg = (mst, .none) ∧
    mermaidOnError mst handler = (mst, .none) ∧
    (∀ (bound bound2 handler2 : Nat) (st : KatexState) (m : WorkerMessage),
      katexOnMessageFrom bound handler2 st m = katexOnMessageFrom bound2 handler2 st m) ∧
    (∀ (bound bound2 handler2 : Nat) (st : KatexState),
      katexOnErrorFrom bound handler2 st = katexOnErrorFrom bound2 handler2 st) := by
  refine ⟨?_, ?_, fun _ _ _ _ _ => rfl, fun _ _ _ _ => rfl⟩
  · unfold mermaidOnMessage
    simp [hstale]
  · unfold mermaidOnError
    simp [hstale]

/-- Witness for C6 (amended): worker 2 is bound, the handler of worker 1 is
stale; its message and error deliveries leave the diagram client state (one
pending id `"m"`) untouched. -/
theorem stale_worker_identity_amended_witness :
    mermaidOnMessage ⟨some 2, false, ["m"], 5⟩ 1 ⟨"m", some true, "svg", none⟩ =
      (⟨some 2, false, ["m"], 5⟩, .none) ∧
    mermaidOnError ⟨some 2, false, ["m"], 5⟩ 1 = (⟨some 2, false, ["m"], 5⟩, .none) :=
  ⟨(stale_worker_identity_amended ⟨some 2, false, ["m"], 5⟩ 1 ⟨"m", some true, "svg", none⟩
      (by decide)).1,
    (stale_worker_identity_amended ⟨some 2, false, ["m"], 5⟩ 1 ⟨"m", some true, "svg", none⟩
      (by decide)).2.1⟩

/-- C8: the backpressure helper retries only on `WORKER_BUSY` failures.  Any
failure with another code propagates immediately with no wait; a `WORKER_BUSY`
failure with retries exhausted (`attempt ≥ maxRetries`) propagates immediately;
a `WORKER_BUSY` failure with attempts remaining waits for a worker slot,
applies the linear backoff `backoffMs * attempt` when a backoff is configured,
and retries; a fulfilled submission returns at once; the default retry bound is
1. -/
theorem backpressure_retry_policy :
    (∀ (mr b a : Nat) (c : String) rest, c ≠ WORKER_BUSY_CODE →
      renderKaTeXWithBackpressure mr b a (.err c :: rest) = (.failure c, [])) ∧
    (∀ (mr b a : Nat) rest, mr ≤ a →
      renderKaTeXWithBackpressure mr b a (.err WORKER_BUSY_CODE :: rest) =
        (.failure WORKER_BUSY_CODE, [])) ∧
    (∀ (mr b a : Nat) rest, a < mr →
      renderKaTeXWithBackpressure mr b a (.err WORKER_BUSY_CODE :: rest) =
        ((renderKaTeXWithBackpressure mr b (a + 1) rest).1,
          .waitedForSlot :: (if 0 < b then [.backoff (b * (a + 1))] else [])
            ++ (renderKaTeXWithBackpressure mr b (a + 1) rest).2)) ∧
    (∀ (mr b a : Nat) (v : String) rest,
      renderKaTeXWithBackpressure mr b a (.ok v :: rest) = (.success v, [])) ∧
    defaultMaxRetries = 1 := by
  refine ⟨?_, ?_, ?_, ?_, rfl⟩
  · intro mr b a c rest hc
    unfold renderKaTeXWithBackpressure
    simp [hc]
  · intro mr b a rest h
    unfold renderKaTeXWithBackpressure
    simp [h]
  · intro mr b a rest h
    simp only [renderKaTeXWithBackpressure]
    split
    · rename_i hcond
      rcases hcond with hc | hle
      · exact absurd rfl hc
      · exact absurd hle (Nat.not_le.mpr h)
    · rfl
  · intro mr b a v rest
    rfl

/-- Witness for C8: with the default bound of one retry and a 30ms backoff, a
timeout error propagates untouched, a first busy failure triggers one wait and
a 30ms backoff before the retry, and a busy failure at `attempt = 1` is final. -/
theorem backpressure_retry_policy_witness :
    renderKaTeXWithBackpressure 1 30 0 [.err "WORKER_TIMEOUT"] =
      (.failure "WORKER_TIMEOUT", []) ∧
    renderKaTeXWithBackpressure 1 30 1 [.err WORKER_BUSY_CODE] =
      (.failure WORKER_BUSY_CODE, []) ∧
    renderKaTeXWithBackpressure 1 30 0 [.err WORKER_BUSY_CODE, .ok "H"] =
      ((renderKaTeXWithBackpressure 1 30 1 [.ok "H"]).1,
        .waitedForSlot :: (if 0 < 30 then [.backoff (30 * 1)] else [])
          ++ (renderKaTeXWithBackpressure 1 30 1 [.ok "H"]).2) ∧
    renderKaTeXWithBackpressure 1 30 1 [.ok "H"] = (.success "H", []) :=
  ⟨backpressure_retry_policy.1 1 30 0 "WORKER_TIMEOUT" [] (by decide),
    backpressure_retry_policy.2.1 1 30 1 [.err WORKER_BUSY_CODE] (by decide),
    backpressure_retry_policy.2.2.1 1 30 0 [.ok "H"] (by decide),
    backpressure_retry_policy.2.2.2.1 1 30 1 "H" []⟩

/-- C3 counterexample: with total = 11, focus index 10 (clamped focus 10),
buffer 10 and max-live-nodes 1, the recomputation yields the range [5, 6), and
the claimed invariant `start ≤ focus ≤ end` fails (10 is outside [5, 6]): the
symmetric shrink ignores where the boundary-clamped focus sits in the window. -/
theorem live_range_focus_escape_cex :
    computeLiveRange 11 10 10 1 = ⟨5, 6⟩ ∧
    clampFocus 11 10 = 10 ∧
    ¬((computeLiveRange 11 10 10 1).start ≤ clampFocus 11 10 ∧
      clampFocus 11 10 ≤ (computeLiveRange 11 10 10 1).stop) := by decide

/-- C3 (amended): for every total, focus index, buffer and max-live-nodes value
(the component resolves the latter to at least 1), the recomputed range
satisfies `0 ≤ start ≤ end ≤ total` and `end - start ≤ maxLiveNodes`; the
containment `start ≤ focus ≤ end` (with focus clamped to `[0, total-1]`) holds
whenever `2*buffer + 1 ≤ maxLiveNodes`, i.e. whenever the pre-shrink span
cannot exceed the bound, but can fail in the shrink branch when the window was
clamped at a document boundary. -/
theorem live_range_bounds (total focusIndex buffer maxLive : Nat)
    (hml : 1 ≤ maxLive) :
    (computeLiveRange total focusIndex buffer maxLive).start ≤
      (computeLiveRange total focusIndex buffer maxLive).stop ∧
    (computeLiveRange total focusIndex buffer maxLive).stop ≤ total ∧
    (computeLiveRange total focusIndex buffer maxLive).stop -
      (computeLiveRange total focusIndex buffer maxLive).start ≤ maxLive ∧
    (total ≠ 0 → 2 * buffer + 1 ≤ maxLive →
      (computeLiveRange total focusIndex buffer maxLive).start ≤
          clampFocus total focusIndex ∧
        clampFocus total focusIndex < (computeLiveRange total focusIndex buffer maxLive).stop) := by
  unfold computeLiveRange clampFocus
  split
  · rename_i h0
    subst h0
    simp
  · rename_i h0
    simp only []
    split
    · rename_i hshrink
      refine ⟨?_, ?_, ?_, ?_⟩ <;> simp only [] <;> omega
    · split
      · rename_i hexpand
        refine ⟨?_, ?_, ?_, ?_⟩ <;> simp only [] <;> omega
      · refine ⟨?_, ?_, ?_, ?_⟩ <;> simp only [] <;> omega

/-- Witness for C3 (amended) at the spec's scenario: total = 1000 nodes,
focus 500, buffer 60, max-live-nodes 320. -/
theorem live_range_bounds_witness :
    (computeLiveRange 1000 500 60 320).start ≤ (computeLiveRange 1000 500 60 320).stop ∧
    (computeLiveRange 1000 500 60 320).stop ≤ 1000 ∧
    (computeLiveRange 1000 500 60 320).stop - (computeLiveRange 1000 500 60 320).start ≤ 320 ∧
    (computeLiveRange 1000 500 60 320).start ≤ clampFocus 1000 500 ∧
    clampFocus 1000 500 < (computeLiveRange 1000 500 60 320).stop :=
  have h := live_range_bounds 1000 500 60 320 (by decide)
  ⟨h.1, h.2.1, h.2.2.1, (h.2.2.2 (by decide) (by decide)).1, (h.2.2.2 (by decide) (by decide)).2⟩

/-- C4 counterexample: with a constant caller-supplied key `"k"` and the total
shrinking from 50 to 10 (no identity and no batch-configuration change), the
reset effect does not leave the watermark alone and does not reset it to the
initial batch: without virtualization it caps the count from 50 down to the new
target 10 — a decrease caused by an event the claim says may not decrease it —
and with virtualization the desired target includes the old count, so the count
stays at 50, above the new total 10, violating the `[0, total]` bound. -/
theorem rendered_count_decrease_cex :
    datasetChanged ⟨50, ⟨some "k", 50⟩, ⟨80, 40, 16, true⟩, 80⟩ (some "k") 10 = false ∧
    batchConfigChanged ⟨50, ⟨some "k", 50⟩, ⟨80, 40, 16, true⟩, 80⟩ ⟨80, 40, 16, true⟩ =
      false ∧
    desiredRenderedCount false 10 0 60 40 50 = 10 ∧
    (datasetEffect ⟨50, ⟨some "k", 50⟩, ⟨80, 40, 16, true⟩, 80⟩ (some "k") 10
        ⟨80, 40, 16, true⟩ 10).renderedCount = 10 ∧
    (10 : Nat) < 50 ∧
    desiredRenderedCount true 10 5 60 40 50 = 50 ∧
    (datasetEffect ⟨50, ⟨some "k", 50⟩, ⟨80, 40, 16, true⟩, 80⟩ (some "k") 10
        ⟨80, 40, 16, true⟩ 50).renderedCount = 50 ∧
    ¬(50 : Nat) ≤ 10 := by decide

/-- C4 (amended): with batching enabled and a non-empty document, the
watermark starts at `min(total, initialBatch)`; a promotion increment never
decreases it while it is at or below the target; an identity or
batch-configuration change resets it to the initial-batch value capped by the
current target; and with neither change it is capped to
`min(current, desired target)` — unchanged whenever it is at or below the
target, but decreased when the target dropped below it (which happens when the
total shrinks under a constant caller-supplied key without virtualization;
with virtualization the desired target includes the current count, so the
count can instead remain above the new total). -/
theorem rendered_count_watermark
    (st : SchedulerState) (indexKey : Option String) (total : Nat)
    (cfg : BatchConfig) (desired : Nat)
    (henabled : cfg.enabled = true) (htotal : total ≠ 0) :
    (∀ t i : Nat, initialRenderedCount true t i = min t i) ∧
    (∀ rc d size : Nat, rc ≤ d → rc ≤ applyIncrement rc d size) ∧
    ((datasetChanged st indexKey total || batchConfigChanged st cfg) = true →
      (datasetEffect st indexKey total cfg desired).renderedCount =
        min desired cfg.initial) ∧
    (datasetChanged st indexKey total = false → batchConfigChanged st cfg = false →
      (datasetEffect st indexKey total cfg desired).renderedCount =
        min st.renderedCount desired) ∧
    (st.renderedCount ≤ desired → datasetChanged st indexKey total = false →
      batchConfigChanged st cfg = false →
      (datasetEffect st indexKey total cfg desired).renderedCount = st.renderedCount) := by
  refine ⟨fun t i => rfl, ?_, ?_, ?_, ?_⟩
  · intro rc d size h
    unfold applyIncrement
    omega
  · intro hchg
    unfold datasetEffect
    simp [htotal, henabled, hchg]
  · intro h1 h2
    unfold datasetEffect
    simp [htotal, henabled, h1, h2]
  · intro hle h1 h2
    unfold datasetEffect
    simp [htotal, henabled, h1, h2]
    omega

/-- Witness for C4 (amended): growing stream under a constant identity (no key
supplied, total steady at 100), count 40, target 100: the effect leaves the
watermark at 40. -/
theorem rendered_count_watermark_witness :
    initialRenderedCount true 100 40 = min 100 40 ∧
    (40 : Nat) ≤ applyIncrement 40 100 80 ∧
    (datasetEffect ⟨40, ⟨none, 100⟩, ⟨80, 40, 16, true⟩, 80⟩ none 100
        ⟨80, 40, 16, true⟩ 100).renderedCount = 40 :=
  have h := rendered_count_watermark ⟨40, ⟨none, 100⟩, ⟨80, 40, 16, true⟩, 80⟩ none 100
    ⟨80, 40, 16, true⟩ 100 rfl (by decide)
  ⟨h.1 100 40, h.2.1 40 100 80 (by decide),
    h.2.2.2.2 (by decide) (by decide) (by decide)⟩

/-! Auxiliary lemmas about the insertion-ordered cache. -/

theorem cacheGet_append_of_none : ∀ (c : List (String × String)) (k v : String),
    cacheGet c k = none → cacheGet (c ++ [(k, v)]) k = some v
  | [], k, v, _ => by simp [cacheGet]
  | (ak, av) :: rest, k, v, h => by
    by_cases hk : ak = k
    · simp [cacheGet, hk] at h
    · simpa [cacheGet, hk] using
        cacheGet_append_of_none rest k v (by simpa [cacheGet, hk] using h)

theorem mapSet_of_none : ∀ (c : List (String × String)) (k v : String),
    cacheGet c k = none → mapSet c k v = c ++ [(k, v)]
  | [], _, _, _ => rfl
  | (ak, av) :: rest, k, v, h => by
    by_cases hk : ak = k
    · simp [cacheGet, hk] at h
    · simp [mapSet, hk, mapSet_of_none rest k v (by simpa [cacheGet, hk] using h)]

theorem length_mapSet_of_some : ∀ (c : List (String × String)) (k v : String),
    cacheGet c k ≠ none → (mapSet c k v).length = c.length
  | [], _, _, h => absurd rfl h
  | (ak, av) :: rest, k, v, h => by
    by_cases hk : ak = k
    · simp [mapSet, hk]
    · simp [mapSet, hk,
        length_mapSet_of_some rest k v (by simpa [cacheGet, hk] using h)]

theorem cacheGet_tail_of_none : ∀ (c : List (String × String)) (k : String),
    cacheGet c k = none → cacheGet c.tail k = none
  | [], _, _ => rfl
  | (ak, av) :: rest, k, h => by
    by_cases hk : ak = k
    · simp [cacheGet, hk] at h
    · simpa [cacheGet, hk] using h

theorem cacheGet_cacheInsert_self (c : List (String × String)) (k v : String)
    (hnone : cacheGet c k = none) (hlen : c.length ≤ CACHE_MAX) :
    cacheGet (cacheInsert c k v) k = some v := by
  unfold cacheInsert
  rw [mapSet_of_none c k v hnone]
  simp only []
  split
  · rename_i hover
    cases c with
    | nil => simp [CACHE_MAX] at hover
    | cons a rest =>
      simpa using cacheGet_append_of_none rest k v (cacheGet_tail_of_none _ _ hnone)
  · exact cacheGet_append_of_none c k v hnone

/-- C9: the result cache is a bounded insertion-ordered map.  Starting from a
cache within the 200-entry bound, every insertion (both the `setKaTeXCache`
code path and the worker-response path execute `cacheInsert`) keeps the cache
within the bound; an insertion under a fresh key appends the entry at the end
and, exactly when the capacity is exceeded, evicts the head of the list — the
oldest entry by insertion order; an insertion under an existing key overwrites
in place (keeping its position, independent of access recency) and never
evicts. -/
theorem cache_bound_fifo (c : List (String × String)) (k v : String)
    (hlen : c.length ≤ CACHE_MAX) :
    (cacheInsert c k v).length ≤ CACHE_MAX ∧
    (cacheGet c k = none → cacheInsert c k v =
      if CACHE_MAX < c.length + 1 then c.tail ++ [(k, v)] else c ++ [(k, v)]) ∧
    (cacheGet c k ≠ none → cacheInsert c k v = mapSet c k v ∧
      (mapSet c k v).length = c.length) := by
  refine ⟨?_, ?_, ?_⟩
  · have hlen' : (mapSet c k v).length ≤ CACHE_MAX + 1 := by
      by_cases hk : cacheGet c k = none
      · rw [mapSet_of_none c k v hk]
        simp
        omega
      · rw [length_mapSet_of_some c k v hk]
        omega
    unfold cacheInsert
    simp only []
    split
    · rename_i hover
      simp
      omega
    · rename_i hunder
      omega
  · intro hk
    unfold cacheInsert
    rw [mapSet_of_none c k v hk]
    simp only [List.length_append, List.length_singleton]
    split
    · rename_i hover
      cases c with
      | nil => simp [CACHE_MAX] at hover
      | cons a rest => simp
    · rfl
  · intro hk
    refine ⟨?_, length_mapSet_of_some c k v hk⟩
    unfold cacheInsert
    simp only []
    rw [if_neg]
    rw [length_mapSet_of_some c k v hk]
    omega

/-- Witness for C9: inserting a fresh key into a one-entry cache appends it
without eviction. -/
theorem cache_bound_fifo_witness :
    (cacheInsert [("d:a", "1")] "d:b" "2").length ≤ CACHE_MAX ∧
    cacheInsert [("d:a", "1")] "d:b" "2" =
      if CACHE_MAX < [("d:a", "1")].length + 1 then [("d:a", "1")].tail ++ [("d:b", "2")]
      else [("d:a", "1")] ++ [("d:b", "2")] :=
  have h := cache_bound_fifo [("d:a", "1")] "d:b" "2" (by decide)
  ⟨h.1, h.2.1 (by decide)⟩

/-- C7 counterexample: a latched `WORKER_INIT_ERROR` is checked before the
cache, so a submission whose key is cached still rejects with the init error
instead of resolving with the cached value. -/
theorem cache_hit_init_error_cex :
    cacheGet [("d:x", "h")] (cacheKey true "x") = some "h" ∧
    renderKaTeXInWorker ⟨false, true, [], [("d:x", "h")], 5⟩ "x" true false "id" true =
      ⟨.rejectedInit, ⟨false, true, [], [("d:x", "h")], 5⟩, false⟩ ∧
    (renderKaTeXInWorker ⟨false, true, [], [("d:x", "h")], 5⟩ "x" true false "id" true).result ≠
      .resolvedCached "h" := by
  refine ⟨by decide, by decide, by decide⟩

/-- C7 (amended): when no worker-initialization error is latched, a submission
whose cache key is present resolves synchronously with the cached value,
leaving the state untouched and dispatching nothing; and a pair of identical
submissions of which the first completes successfully issues exactly one
dispatch — the first call dispatches, its response populates the cache, and the
second call resolves from the cache without dispatch. -/
theorem cache_hit_no_dispatch
    (st : KatexState) (content : String) (displayMode aborted postOk : Bool)
    (newId html : String)
    (hinit : st.workerInitError = false)
    (hhit : cacheGet st.cache (cacheKey displayMode content) = some html) :
    renderKaTeXInWorker st content displayMode aborted newId postOk =
      ⟨.resolvedCached html, st, false⟩ ∧
    (∀ (st0 : KatexState) (c : String) (dm : Bool) (id1 id2 resp : String),
      st0.workerInitError = false → st0.hasWorker = true →
      cacheGet st0.cache (cacheKey dm c) = none →
      st0.pending.length < st0.maxConcurrency →
      st0.cache.length ≤ CACHE_MAX → c ≠ "" →
      (renderKaTeXInWorker st0 c dm false id1 true).dispatched = true ∧
      renderKaTeXInWorker
          (katexOnMessage (renderKaTeXInWorker st0 c dm false id1 true).state
            ⟨id1, none, resp, c, dm⟩).1 c dm false id2 true =
        ⟨.resolvedCached resp,
          (katexOnMessage (renderKaTeXInWorker st0 c dm false id1 true).state
            ⟨id1, none, resp, c, dm⟩).1, false⟩) := by
  constructor
  · unfold renderKaTeXInWorker
    rw [hhit]
    simp [hinit]
  · intro st0 c dm id1 id2 resp h0 hw hmiss hcap hclen hc
    have ho1 : renderKaTeXInWorker st0 c dm false id1 true =
        ⟨.pendingRegistered id1, { st0 with pending := st0.pending ++ [id1] }, true⟩ := by
      unfold renderKaTeXInWorker
      rw [hmiss]
      simp [h0, hw, Nat.not_le.mpr hcap]
    rw [ho1]
    have hmsg : katexOnMessage { st0 with pending := st0.pending ++ [id1] }
        ⟨id1, none, resp, c, dm⟩ =
        ({ st0 with
            pending := (st0.pending ++ [id1]).erase id1
            cache := cacheInsert st0.cache (cacheKey dm c) resp }, .resolved id1 resp) := by
      unfold katexOnMessage
      simp [hc]
    rw [hmsg]
    refine ⟨rfl, ?_⟩
    unfold renderKaTeXInWorker
    rw [show cacheGet (cacheInsert st0.cache (cacheKey dm c) resp) (cacheKey dm c) =
        some resp from cacheGet_cacheInsert_self _ _ _ hmiss hclen]
    simp [h0]

/-- Witness for C7 (amended): a cached submission resolves from the cache, and
an uncached one dispatches once, after which its twin is served from cache. -/
theorem cache_hit_no_dispatch_witness :
    renderKaTeXInWorker ⟨true, false, [], [("d:x", "h")], 5⟩ "x" true false "i" true =
      ⟨.resolvedCached "h", ⟨true, false, [], [("d:x", "h")], 5⟩, false⟩ ∧
    (renderKaTeXInWorker ⟨true, false, [], [], 5⟩ "y" true false "a" true).dispatched = true ∧
    renderKaTeXInWorker
        (katexOnMessage (renderKaTeXInWorker ⟨true, false, [], [], 5⟩ "y" true false "a" true).state
          ⟨"a", none, "H", "y", true⟩).1 "y" true false "b" true =
      ⟨.resolvedCached "H",
        (katexOnMessage (renderKaTeXInWorker ⟨true, false, [], [], 5⟩ "y" true false "a" true).state
          ⟨"a", none, "H", "y", true⟩).1, false⟩ :=
  have h := cache_hit_no_dispatch ⟨true, false, [], [("d:x", "h")], 5⟩ "x" true false true "i" "h"
    rfl (by decide)
  have h2 := h.2 ⟨true, false, [], [], 5⟩ "y" true "a" "b" "H" rfl rfl rfl (by decide)
    (by decide) (by decide)
  ⟨h.1, h2.1, h2.2⟩

/-- C1 counterexample: the captured generation token is not compared at
completion time.  Attempt A on `"graph TD"` captures token 1, passes the only
checkpoint (the token is still 1 when the parse await returns), and its full
render then completes while the controller's token is already 2 — attempt B on
new content started meanwhile — yet A's result is written to the display: a
stale result is displayed after the newer attempt began.  (The attempt carries
no abort signal, as is the case for the mode-switch invocation
`progressiveRender(baseFixedCode)` of the source.) -/
theorem stale_full_render_displayed_cex :
    (progressiveRender "graph TD".data false [] false 0
        ⟨.success, 1, false, true, false, 2, none, 0, false, false, false, 0⟩).display =
      .full "graph TD".data ∧
    (⟨.success, 1, false, true, false, 2, none, 0, false, false, false, 0⟩ :
        RenderEnv).tokenAtFullCompletion ≠ 0 + 1 := by decide

/-- C1 (amended): every attempt captures `token + 1` at start; the captured
token is compared against the current token at the checkpoint after the parse
phase and at the checkpoint after the prefix search — an attempt found stale
there displays nothing — and a displayed full or preview result moreover
requires that the attempt's abort signal (when it carries one) had not fired by
render completion.  No comparison happens at render completion itself, so a
render dispatched before a newer attempt started can still be displayed
afterwards unless its signal was aborted (the content-change effect of the
source aborts the superseded attempt's signal; the mode-switch invocation
passes no signal). -/
theorem token_checkpoint_discard
    (code lastRendered : List Char) (hasSignal hasRenderedOnce : Bool) (token : Nat)
    (env : RenderEnv) :
    ((progressiveRender code hasSignal lastRendered hasRenderedOnce token env).display =
        .full code →
      env.parseOutcome = .success ∧ env.tokenAfterParse = token + 1 ∧
      (hasSignal = true → env.abortedAfterParse = false ∧ env.abortedDuringFull = false) ∧
      env.fullRenderOk = true) ∧
    (∀ p, (progressiveRender code hasSignal lastRendered hasRenderedOnce token env).display =
        .preview p →
      env.parseOutcome = .failure ∧ env.tokenAfterPrefix = token + 1 ∧
      (hasSignal = true → env.abortedAfterPrefix = false ∧ env.abortedDuringPreview = false) ∧
      env.previewRenderOk = true) ∧
    (env.parseOutcome = .success → env.tokenAfterParse ≠ token + 1 →
      (progressiveRender code hasSignal lastRendered hasRenderedOnce token env).display =
          .none ∨
        (progressiveRender code hasSignal lastRendered hasRenderedOnce token env).display =
          .cleared) ∧
    (env.parseOutcome = .failure → env.tokenAfterPrefix ≠ token + 1 →
      (progressiveRender code hasSignal lastRendered hasRenderedOnce token env).display =
          .none ∨
        (progressiveRender code hasSignal lastRendered hasRenderedOnce token env).display =
          .cleared) := by
  obtain ⟨po, tap, aap, fro, adf, tfc, pf, tapr, aapr, pro, adp, tpc⟩ := env
  generalize hr : progressiveRender code hasSignal lastRendered hasRenderedOnce token
      ⟨po, tap, aap, fro, adf, tfc, pf, tapr, aapr, pro, adp, tpc⟩ = r
  unfold progressiveRender runFull runPreview at hr
  dsimp only at hr ⊢
  cases po
  case abortError =>
    dsimp only at hr
    split_ifs at hr <;> subst hr <;>
      refine ⟨?_, ?_, ?_, ?_⟩ <;> intros <;> simp_all
  case success =>
    dsimp only at hr
    split_ifs at hr <;> subst hr <;>
      refine ⟨?_, ?_, ?_, ?_⟩ <;> intros <;> simp_all
  case failure =>
    cases pf
    case none =>
      dsimp only at hr
      split_ifs at hr <;> subst hr <;>
        refine ⟨?_, ?_, ?_, ?_⟩ <;> intros <;> simp_all
    case some p =>
      dsimp only at hr
      split_ifs at hr <;> subst hr <;>
        refine ⟨?_, ?_, ?_, ?_⟩ <;> intros <;> simp_all

/-- Witness for C1 (amended): an attempt whose captured token (1) no longer
matches the controller's token when the parse await returns (5) displays
nothing. -/
theorem token_checkpoint_discard_witness :
    (progressiveRender "graph TD".data false [] false 0
        ⟨.success, 5, false, true, false, 0, none, 0, false, false, false, 0⟩).display =
        .none ∨
      (progressiveRender "graph TD".data false [] false 0
        ⟨.success, 5, false, true, false, 0, none, 0, false, false, false, 0⟩).display =
        .cleared :=
  (token_checkpoint_discard "graph TD".data [] false false 0
      ⟨.success, 5, false, true, false, 0, none, 0, false, false, false, 0⟩).2.2.1
    rfl (by decide)

/-! Auxiliary lemmas about line splitting and trailing-line removal. -/

theorem exists_prepend_dropWhile {α : Type} (p : α → Bool) :
    ∀ l : List α, ∃ t, t ++ l.dropWhile p = l
  | [] => ⟨[], rfl⟩
  | a :: l => by
    by_cases h : p a
    · obtain ⟨t, ht⟩ := exists_prepend_dropWhile p l
      exact ⟨a :: t, by simp [List.dropWhile_cons, h, ht]⟩
    · exact ⟨[], by simp [List.dropWhile_cons, h]⟩

theorem reverse_dropWhile_take {α : Type} (p : α → Bool) (l : List α) :
    ∃ k, (l.reverse.dropWhile p).reverse = l.take k := by
  obtain ⟨t, ht⟩ := exists_prepend_dropWhile p l.reverse
  have h2 : (l.reverse.dropWhile p).reverse ++ t.reverse = l := by
    rw [← List.reverse_append, ht, List.reverse_reverse]
  set d := (l.reverse.dropWhile p).reverse with hd
  refine ⟨d.length, ?_⟩
  conv_rhs => rw [← h2]
  rw [List.take_left]

theorem joinTail_take : ∀ (ls : List (List Char)) (k : Nat),
    ∃ t, joinTail (ls.take k) ++ t = joinTail ls
  | ls, 0 => ⟨joinTail ls, by simp [joinTail]⟩
  | [], _ + 1 => ⟨[], by simp⟩
  | l :: ls, k + 1 => by
    obtain ⟨t, ht⟩ := joinTail_take ls k
    exact ⟨t, by simp [joinTail, List.append_assoc, ht]⟩

theorem joinLines_take : ∀ (ls : List (List Char)) (k : Nat),
    ∃ t, joinLines (ls.take k) ++ t = joinLines ls
  | [], _ => ⟨[], by simp [joinLines]⟩
  | l :: ls, 0 => ⟨joinLines (l :: ls), rfl⟩
  | l :: ls, k + 1 => by
    obtain ⟨t, ht⟩ := joinTail_take ls k
    exact ⟨t, by simp [joinLines, List.append_assoc, ht]⟩

theorem splitLines_ne_nil : ∀ l : List Char, splitLines l ≠ []
  | [] => by simp [splitLines]
  | c :: rest => by
    by_cases h : c = '\n'
    · simp [splitLines, h]
    · cases hs : splitLines rest with
      | nil => simp [splitLines, h, hs]
      | cons a as => simp [splitLines, h, hs]

theorem joinTail_eq_cons (r : List (List Char)) (hr : r ≠ []) :
    joinTail r = '\n' :: joinLines r := by
  cases r with
  | nil => exact absurd rfl hr
  | cons a as => rfl

theorem joinLines_splitLines : ∀ l : List Char, joinLines (splitLines l) = l
  | [] => rfl
  | c :: rest => by
    have ih := joinLines_splitLines rest
    by_cases h : c = '\n'
    · subst h
      have h1 : splitLines ('\n' :: rest) = [] :: splitLines rest := by
        simp [splitLines]
      rw [h1]
      show [] ++ joinTail (splitLines rest) = '\n' :: rest
      rw [List.nil_append, joinTail_eq_cons _ (splitLines_ne_nil rest), ih]
    · cases hs : splitLines rest with
      | nil => exact absurd hs (splitLines_ne_nil rest)
      | cons a as =>
        have h2 : splitLines (c :: rest) = (c :: a) :: as := by
          simp [splitLines, h, hs]
        rw [h2]
        show (c :: a) ++ joinTail as = c :: rest
        rw [← ih, hs]
        rfl

theorem dropWhile_or_of_head {α : Type} (q r : α → Bool) :
    ∀ l : List α, (∀ x xs, l.dropWhile q = x :: xs → r x = false) →
      l.dropWhile (fun x => q x || r x) = l.dropWhile q
  | [], _ => rfl
  | a :: l, h => by
    by_cases hq : q a
    · have h' : ∀ x xs, l.dropWhile q = x :: xs → r x = false := by
        intro x xs hx
        exact h x xs (by simp [List.dropWhile_cons, hq, hx])
      simp [List.dropWhile_cons, hq, dropWhile_or_of_head q r l h']
    · have hr : r a = false := h a l (by simp [List.dropWhile_cons, hq])
      simp [List.dropWhile_cons, hq, hr]

/-- C10: `getSafePrefixCandidate` only deletes whole trailing lines: its result
is the join of an initial segment of the input's lines (so every kept line is
unaltered), it is a character-for-character prefix of the input, and when the
last non-blank line is not classified as dangling it returns the input
unchanged apart from trailing blank lines.  The function is a total
(structurally terminating) computation by construction. -/
theorem safe_candidate_trailing_lines (code : List Char) :
    (∃ k, getSafePrefixCandidate code = joinLines ((splitLines code).take k)) ∧
    (∃ t, getSafePrefixCandidate code ++ t = code) ∧
    ((∀ x xs, (splitLines code).reverse.dropWhile blankLine = x :: xs →
        looksDangling (trimEndL x) = false) →
      getSafePrefixCandidate code = dropTrailingBlanks code) := by
  have hpop : popLine = fun x => blankLine x || looksDangling (trimEndL x) := rfl
  obtain ⟨k, hk⟩ := reverse_dropWhile_take popLine (splitLines code)
  refine ⟨⟨k, by rw [getSafePrefixCandidate, hk]⟩, ?_, ?_⟩
  · obtain ⟨t, ht⟩ := joinLines_take (splitLines code) k
    refine ⟨t, ?_⟩
    rw [getSafePrefixCandidate, hk, ht, joinLines_splitLines]
  · intro h
    rw [getSafePrefixCandidate, dropTrailingBlanks, hpop,
      dropWhile_or_of_head blankLine _ _ h]

/-- Witness for C10 at `"graph TD\na-->b"`: the last line is not dangling, so
the candidate is the input itself (no trailing blanks to drop). -/
theorem safe_candidate_trailing_lines_witness :
    (∃ k, getSafePrefixCandidate "graph TD\na-->b".data =
      joinLines ((splitLines "graph TD\na-->b".data).take k)) ∧
    getSafePrefixCandidate "graph TD\na-->b".data =
      dropTrailingBlanks "graph TD\na-->b".data :=
  have h := safe_candidate_trailing_lines "graph TD\na-->b".data
  ⟨h.1, h.2.2 (by
    intro x xs hx
    have hl : (splitLines "graph TD\na-->b".data).reverse.dropWhile blankLine =
        "a-->b".data :: ["graph TD".data] := by decide
    rw [hl] at hx
    injection hx with h1 h2
    rw [← h1]
    decide)⟩

end MarkStream
